import Mathlib

/-!
Verification of the medical-assistant RAG core: shallow embedding of the
retriever, vector store, generator and pipeline orchestrator, with theorems
settling the frozen claims about them.

Python strings are embedded as `List Char`, Python floats as exact rationals
(`ℚ`), Python ints as `ℤ`/`ℕ`, Python `None`-able values as `Option`, and
raised exceptions as `Except` error results.  External collaborators (FAISS
similarity search, the Cohere chat model, the wall clock) are abstract
parameters of the embedded operations.
-/

deriving instance DecidableEq for Except

namespace MedRag

/-- Python strings, embedded as lists of characters. -/
abbrev Str := List Char

/-- Python `str.strip()`: drop whitespace from both ends. -/
def pyStrip (s : Str) : Str :=
  ((s.dropWhile Char.isWhitespace).reverse.dropWhile Char.isWhitespace).reverse

/-- Python `str.lower()` (per-character lowering). -/
def pyLower (s : Str) : Str := s.map Char.toLower

/-- Does `needle` occur at the start of `hay`?  (Python `str.startswith`.) -/
def startsWith : Str → Str → Bool
  | _, [] => true
  | [], _ :: _ => false
  | a :: as, b :: bs => a == b && startsWith as bs

/-- Python substring test `needle in hay`. -/
def containsStr (needle : Str) : Str → Bool
  | [] => needle.isEmpty
  | c :: t => startsWith (c :: t) needle || containsStr needle t

/-- Decimal rendering of a natural number (Python `str(n)` for `n ≥ 0`). -/
def digitsStr (n : ℕ) : Str := (Nat.repr n).toList

/-- A langchain `Document`: `page_content` plus a string-keyed metadata
    mapping, embedded as an association list. -/
structure Document where
  page_content : Str
  metadata : List (Str × Str)
deriving DecidableEq

/-- Python `doc.metadata.get(key, default)`. -/
def getMeta (m : List (Str × Str)) (key dflt : Str) : Str :=
  match m.find? (fun kv => kv.1 == key) with
  | some kv => kv.2
  | none => dflt

/-! ## Retriever (`src/components/retriever.py`)

`Retriever.similarity_search` delegates to the FAISS store (an external
collaborator), so the embedded operations take the search as an abstract
function from the requested `k` to the scored results. -/

/-- `Retriever.similarity_search_with_threshold`: over-fetch `k * 2`
    candidates, keep scores `≤ threshold`, truncate to `k`. -/
def similarity_search_with_threshold (search : ℕ → List (Document × ℚ))
    (k : ℕ) (threshold : ℚ) : List (Document × ℚ) :=
  ((search (k * 2)).filter (fun p => decide (p.2 ≤ threshold))).take k

/-- The loop of `Retriever.get_relevant_context`, producing `context_parts`.
    `maxLen` is `max_context_length` (a Python int), `totalLen` the running
    `total_len`.  A block that would overflow the budget is truncated to the
    remaining space (with an `"..."` marker) only when more than 100
    characters of budget remain, and the loop then stops. -/
def contextParts (maxLen : ℤ) : List (Document × ℚ) → ℤ → List Str
  | [], _ => []
  | (doc, _) :: rest, totalLen =>
    let content := pyStrip doc.page_content
    let source := getMeta doc.metadata "source".toList "Unknown".toList
    let block := "[Source: ".toList ++ source ++ "]\n".toList ++ content ++ "\n".toList
    if totalLen + (block.length : ℤ) > maxLen then
      let spaceLeft := maxLen - totalLen
      if spaceLeft > 100 then [block.take (spaceLeft - 3).toNat ++ "...".toList]
      else []
    else
      block :: contextParts maxLen rest (totalLen + (block.length : ℤ))

/-- Python `sep.join(parts)`. -/
def joinSep (sep : Str) : List Str → Str
  | [] => []
  | [part] => part
  | part :: part2 :: parts => part ++ sep ++ joinSep sep (part2 :: parts)

/-- `Retriever.get_relevant_context`: assemble the labeled blocks for the
    similarity-search `results` and join them with `"\n"`. -/
def get_relevant_context (results : List (Document × ℚ)) (maxLen : ℤ) : Str :=
  joinSep "\n".toList (contextParts maxLen results 0)

/-- A document with empty content and source name `"A"`, whose labeled
    context block is exactly 13 characters long. -/
def docA : Document := ⟨[], [("source".toList, "A".toList)]⟩

/-- Claim C1 (code bug, evaluated at the failing input): two retrieval
    results whose 13-character blocks exactly fill a 26-character budget
    yield an assembled context of 27 characters, because the `"\n".join`
    separator between blocks is not counted against `total_len`.  The claim
    that the result length never exceeds `max_context_length` fails here. -/
theorem C1_budget_exceeded_on_exact_fit :
    (get_relevant_context [(docA, 0), (docA, 0)] 26).length = 27 ∧
    ¬ ((get_relevant_context [(docA, 0), (docA, 0)] 26).length ≤ 26) := by
  constructor
  · rfl
  · decide

/-- Claim C4: every pair returned by `similarity_search_with_threshold`
    has score `≤ threshold`, at most `k` pairs are returned, and the result
    is drawn (as a sublist) from the `k * 2`-candidate similarity search. -/
theorem C4_threshold_filtering (search : ℕ → List (Document × ℚ))
    (k : ℕ) (t : ℚ) (hk : 1 ≤ k) :
    (∀ p ∈ similarity_search_with_threshold search k t, p.2 ≤ t) ∧
    (similarity_search_with_threshold search k t).length ≤ k ∧
    (similarity_search_with_threshold search k t).Sublist (search (k * 2)) := by
  refine ⟨?_, ?_, ?_⟩
  · intro p hp
    have hmem := List.mem_of_mem_take hp
    have := List.of_mem_filter hmem
    simpa using this
  · exact List.length_take_le k _
  · exact (List.take_sublist _ _).trans (List.filter_sublist _)

/-- Witness for C4 at a concrete one-element search. -/
theorem C4_threshold_filtering_witness :
    (∀ p ∈ similarity_search_with_threshold (fun _ => [(docA, 1/2)]) 1 1, p.2 ≤ 1) ∧
    (similarity_search_with_threshold (fun _ => [(docA, 1/2)]) 1 1).length ≤ 1 ∧
    (similarity_search_with_threshold (fun _ => [(docA, 1/2)]) 1 1).Sublist
      ((fun _ => [(docA, 1/2)]) (1 * 2)) :=
  C4_threshold_filtering (fun _ => [(docA, 1/2)]) 1 1 (by decide)

/-- Claim C9: threshold filtering is order-preserving — the filtered result
    is a sublist (subsequence) of the underlying `k * 2`-candidate search
    result, so surviving pairs keep their relative order. -/
theorem C9_threshold_filtering_order_preserving (search : ℕ → List (Document × ℚ))
    (k : ℕ) (t : ℚ) :
    (similarity_search_with_threshold search k t).Sublist (search (k * 2)) :=
  (List.take_sublist _ _).trans (List.filter_sublist _)

/-! ## Vector store (`src/components/vector_store.py`)

The FAISS index itself is an external collaborator; the embedding keeps only
what the persistence operations observe of it, namely the number of vectors
it holds.  The store directory on disk is modelled as a record of the
artifacts `save` writes: the FAISS index files and `documents.pkl`. -/

/-- The FAISS nearest-neighbor structure, abstracted to its vector count. -/
structure FaissIndex where
  ntotal : ℕ
deriving DecidableEq

/-- `FAISS.from_documents` (external collaborator): one vector per document. -/
def faissFromDocuments (docs : List Document) : FaissIndex := ⟨docs.length⟩

/-- The persisted store directory: whether the path exists, the serialized
    FAISS index (written by `save_local`) and the pickled `documents` list. -/
structure VSFiles where
  pathExists : Bool
  indexFile : Option FaissIndex
  documentsPkl : Option (List Document)
deriving DecidableEq

/-- The in-memory state of `VectorStore`: `self.vector_store` (possibly
    uninitialized) and `self.documents`. -/
structure VectorStoreState where
  vector_store : Option FaissIndex
  documents : List Document
deriving DecidableEq

/-- A freshly constructed `VectorStore` instance. -/
def freshStore : VectorStoreState := ⟨none, []⟩

/-- `VectorStore.create`: rejects an empty document list, otherwise replaces
    the documents and builds a fresh FAISS index over them. -/
def VectorStoreState.create (vs : VectorStoreState) (documents : List Document) :
    Except Str VectorStoreState :=
  if documents.isEmpty then
    .error "No documents provided for vector store creation".toList
  else
    .ok { vs with documents := documents,
                  vector_store := some (faissFromDocuments documents) }

/-- `VectorStore.save`: raises if no index exists, otherwise writes the FAISS
    index and pickles `self.documents` beside it. -/
def VectorStoreState.save (vs : VectorStoreState) : Except Str VSFiles :=
  match vs.vector_store with
  | none => .error "No vector store to save.".toList
  | some idx => .ok ⟨true, some idx, some vs.documents⟩

/-- `VectorStore.load`: a missing path logs a warning and returns with the
    prior state untouched; otherwise `FAISS.load_local` installs the index
    (raising if the index files are unreadable), and `documents.pkl` replaces
    `self.documents` only when that file exists. -/
def VectorStoreState.load (vs : VectorStoreState) (fs : VSFiles) :
    Except Str VectorStoreState :=
  if !fs.pathExists then .ok vs
  else
    match fs.indexFile with
    | none => .error "could not open FAISS index".toList
    | some idx =>
      match fs.documentsPkl with
      | some docs => .ok { vector_store := some idx, documents := docs }
      | none => .ok { vs with vector_store := some idx }

/-- `VectorStore.get_document_count` (with Python list truthiness). -/
def VectorStoreState.get_document_count (vs : VectorStoreState) : ℕ :=
  if vs.documents.isEmpty then 0 else vs.documents.length

/-- Counterexample to claim C6: a persisted index holding 2 vectors beside a
    pickled list of 1 document (mismatched counts).  `load` does not abort:
    it succeeds and replaces the prior in-memory state with the inconsistent
    pair. -/
theorem C6_counterexample_mismatched_load_succeeds :
    (2 : ℕ) ≠ [docA].length ∧
    freshStore.load ⟨true, some ⟨2⟩, some [docA]⟩ = .ok ⟨some ⟨2⟩, [docA]⟩ ∧
    freshStore.load ⟨true, some ⟨2⟩, some [docA]⟩ ≠ .ok freshStore := by
  refine ⟨by decide, rfl, by decide⟩

/-- Claim C6 as amended: `load` performs no count-consistency check.  When
    the store path exists and both artifacts are present it succeeds and
    installs both, however their counts relate; when only the metadata file
    is missing it installs the index and silently keeps the prior documents;
    it leaves the prior state untouched only when the path is missing
    (silent no-op) or the index file itself is unreadable (raises). -/
theorem C6_load_never_checks_consistency (vs : VectorStoreState) (fs : VSFiles) :
    (fs.pathExists = false → vs.load fs = .ok vs) ∧
    (∀ idx docs, fs.pathExists = true → fs.indexFile = some idx →
      fs.documentsPkl = some docs → vs.load fs = .ok ⟨some idx, docs⟩) ∧
    (∀ idx, fs.pathExists = true → fs.indexFile = some idx →
      fs.documentsPkl = none →
      vs.load fs = .ok ⟨some idx, vs.documents⟩) ∧
    (fs.pathExists = true → fs.indexFile = none →
      vs.load fs = .error "could not open FAISS index".toList) := by
  obtain ⟨pe, idxf, pkl⟩ := fs
  refine ⟨?_, ?_, ?_, ?_⟩
  · rintro rfl; rfl
  · rintro idx docs rfl rfl rfl; rfl
  · rintro idx rfl rfl rfl; rfl
  · rintro rfl rfl; rfl

/-- Witness for the amended C6 at a concrete mismatched store. -/
theorem C6_load_never_checks_consistency_witness :
    freshStore.load ⟨true, some ⟨2⟩, some [docA]⟩ = .ok ⟨some ⟨2⟩, [docA]⟩ :=
  (C6_load_never_checks_consistency freshStore ⟨true, some ⟨2⟩, some [docA]⟩).2.1
    ⟨2⟩ [docA] rfl rfl rfl

/-- Claim C7: for every non-empty indexed chunk list, `save` followed by
    `load` into a fresh instance restores the same `document_count` and the
    same chunk texts and metadata in the same order. -/
theorem C7_save_load_roundtrip (vs : VectorStoreState) (docs : List Document)
    (h : docs ≠ []) :
    ∃ vs' fs vs'',
      vs.create docs = .ok vs' ∧ vs'.save = .ok fs ∧
      freshStore.load fs = .ok vs'' ∧
      vs''.get_document_count = vs'.get_document_count ∧
      vs''.documents = vs'.documents := by
  refine ⟨{ vs with documents := docs,
                    vector_store := some (faissFromDocuments docs) },
          ⟨true, some (faissFromDocuments docs), some docs⟩,
          ⟨some (faissFromDocuments docs), docs⟩, ?_, rfl, rfl, rfl, rfl⟩
  simp [VectorStoreState.create, h]

/-- Witness for C7 on a one-document store. -/
theorem C7_save_load_roundtrip_witness :
    ∃ vs' fs vs'',
      freshStore.create [docA] = .ok vs' ∧ vs'.save = .ok fs ∧
      freshStore.load fs = .ok vs'' ∧
      vs''.get_document_count = vs'.get_document_count ∧
      vs''.documents = vs'.documents :=
  C7_save_load_roundtrip freshStore [docA] (by decide)

/-! ## Response quality heuristics (`src/core/rag_pipeline.py`)

`RAGPipeline.evaluate_response_quality` is pure arithmetic/string logic over
the query, the generated response and the scored sources; Python's
`round(score, 2)` is the identity on the exact multiples of `0.2` that
`score` ranges over, so the rational embedding drops it. -/

/-- The metrics dictionary returned by `evaluate_response_quality`. -/
structure QualityMetrics where
  response_length : ℕ
  num_sources_used : ℕ
  avg_source_relevance : ℚ
  contains_disclaimer : Bool
  cites_sources : Bool
  quality_score : ℚ
deriving DecidableEq

/-- The four disclaimer phrases searched for in the lowered response. -/
def disclaimerPhrases : List Str :=
  ["consult".toList, "doctor".toList, "healthcare".toList, "medical advice".toList]

/-- `RAGPipeline.evaluate_response_quality`: five boolean signals weighted
    `0.2` each; the mean source relevance falls back to `0` on an empty
    source list (Python's `... if sources else 0` guard). -/
def evaluate_response_quality (query response : Str)
    (sources : List (Document × ℚ)) : QualityMetrics :=
  let response_length := response.length
  let num_sources_used := sources.length
  let avg_source_relevance : ℚ :=
    if sources.isEmpty then 0
    else (sources.map Prod.snd).sum / (sources.length : ℚ)
  let contains_disclaimer :=
    disclaimerPhrases.any (fun p => containsStr p (pyLower response))
  let cites_sources :=
    sources.any (fun ds => containsStr (getMeta ds.1.metadata "source".toList []) response)
  let score : ℚ :=
    (((if response_length > 50 then 1 else 0) +
      (if num_sources_used ≥ 2 then 1 else 0) +
      (if avg_source_relevance > 0.7 then 1 else 0) +
      (if contains_disclaimer then 1 else 0) +
      (if cites_sources then 1 else 0) : ℕ) : ℚ) * 0.2
  { response_length := response_length
    num_sources_used := num_sources_used
    avg_source_relevance := avg_source_relevance
    contains_disclaimer := contains_disclaimer
    cites_sources := cites_sources
    quality_score := score }

/-- Any count of at most five signals, weighted `0.2`, lands in the
    six-value score set. -/
theorem score_set_of_le_five (n : ℕ) (hn : n ≤ 5) :
    ((n : ℚ) * 0.2) ∈ ({0, 0.2, 0.4, 0.6, 0.8, 1} : Set ℚ) := by
  interval_cases n <;> norm_num [Set.mem_insert_iff]

/-- Claim C8: `evaluate_response_quality` always returns a `quality_score`
    equal to `0.2` times the number of its five boolean signals that hold,
    and that score lies in `{0, 0.2, 0.4, 0.6, 0.8, 1}`. -/
theorem C8_quality_score_range (query response : Str)
    (sources : List (Document × ℚ)) :
    (evaluate_response_quality query response sources).quality_score =
      (((if (evaluate_response_quality query response sources).response_length > 50
            then 1 else 0) +
        (if (evaluate_response_quality query response sources).num_sources_used ≥ 2
            then 1 else 0) +
        (if (evaluate_response_quality query response sources).avg_source_relevance > 0.7
            then 1 else 0) +
        (if (evaluate_response_quality query response sources).contains_disclaimer
            then 1 else 0) +
        (if (evaluate_response_quality query response sources).cites_sources
            then 1 else 0) : ℕ) : ℚ) * 0.2 ∧
    (evaluate_response_quality query response sources).quality_score ∈
      ({0, 0.2, 0.4, 0.6, 0.8, 1} : Set ℚ) := by
  constructor
  · rfl
  · exact score_set_of_le_five _ (by split_ifs <;> omega)

/-- Claim C10: on an empty source list `evaluate_response_quality` is total:
    the guarded mean yields `avg_source_relevance = 0`, `num_sources_used`
    is `0`, `cites_sources` is `false`, and a quality score in the usual set
    is still produced. -/
theorem C10_total_on_empty_sources (query response : Str) :
    (evaluate_response_quality query response []).avg_source_relevance = 0 ∧
    (evaluate_response_quality query response []).num_sources_used = 0 ∧
    (evaluate_response_quality query response []).cites_sources = false ∧
    (evaluate_response_quality query response []).quality_score ∈
      ({0, 0.2, 0.4, 0.6, 0.8, 1} : Set ℚ) := by
  refine ⟨rfl, rfl, rfl, ?_⟩
  exact score_set_of_le_five _ (by split_ifs <;> omega)

/-! ## Generator (`src/components/generator.py`)

The Cohere chat model is an external collaborator, embedded as an abstract
function `Llm` from the temperature the client handle was built with and the
two template slots (context, question) to the completion text or a raised
exception.  `_load_llm` bakes the current temperature into the client
handle, which the embedding records as `llm_temperature`. -/

/-- The language-model capability at a given client temperature. -/
abbrev Llm := ℚ → Str → Str → Except Str Str

/-- In-memory `Generator` state: the persisted settings plus the temperature
    the current `ChatCohere` handle was constructed with. -/
structure Generator where
  model_name : Str
  temperature : ℚ
  max_tokens : ℕ
  llm_temperature : ℚ
deriving DecidableEq

/-- `Generator.update`: applies only provided fields (`model_name` and
    `max_tokens` under Python truthiness, `temperature` under `is not None`)
    and then rebuilds the model handle at the resulting temperature. -/
def Generator.update (g : Generator) (modelName? : Option Str)
    (temperature? : Option ℚ) (maxTokens? : Option ℕ) : Generator :=
  let g1 := match modelName? with
    | some m => if m.isEmpty then g else { g with model_name := m }
    | none => g
  let g2 := match temperature? with
    | some t => { g1 with temperature := t }
    | none => g1
  let g3 := match maxTokens? with
    | some n => if n == 0 then g2 else { g2 with max_tokens := n }
    | none => g2
  { g3 with llm_temperature := g3.temperature }

/-- `Generator.generate`: format the prompt template with the context and
    question, invoke the model handle, strip the completion. -/
def Generator.generate (g : Generator) (llm : Llm) (query context : Str) :
    Except Str Str :=
  match llm g.llm_temperature context query with
  | .ok resp => .ok (pyStrip resp)
  | .error e => .error e

/-! ## Pipeline orchestrator (`src/core/rag_pipeline.py`)

`RAGPipeline.generate_response` is embedded with explicit state passing: it
returns the pipeline state after the call (the code mutates
`self.generator`), a flag recording whether the generation capability was
invoked, and the result dictionary.  Retrieval
(`Retriever(vectorstore).similarity_search(query, k)`) is an abstract
function of `k`; the wall-clock durations measured with `time.time()` are
the abstract inputs `t1` (retrieval time) and `t2` (total elapsed time). -/

/-- Pipeline state: persisted temperature, retrieval `k`, and the owned
    generator. -/
structure RAGPipeline where
  temperature : ℚ
  top_k : ℕ
  generator : Generator
deriving DecidableEq

/-- The `metadata` dictionary of a pipeline result; fields that a given
    branch does not write are `none`. -/
structure Metadata where
  retrieved_docs : Option ℕ := none
  retrieval_time : Option ℚ := none
  generation_time : Option ℚ := none
  total_time : ℚ
  model : Option Str := none
  temperature : Option ℚ := none
  error : Option Str := none
deriving DecidableEq

/-- The result dictionary of `generate_response`. -/
structure RAGResult where
  answer : Str
  sources : List (Document × ℚ)
  context : Option Str := none
  metadata : Metadata
deriving DecidableEq

/-- One enumerated block of `RAGPipeline._prepare_context`; `render3f` is
    the decimal rendering of `f"{score:.3f}"`. -/
def render3f (q : ℚ) : Str :=
  let sign : Str := if q < 0 then "-".toList else []
  let m : ℕ := (⌊|q| * 1000 + 1 / 2⌋).toNat
  let fracDigits := digitsStr (m % 1000)
  sign ++ digitsStr (m / 1000) ++ ".".toList ++
    List.replicate (3 - fracDigits.length) '0' ++ fracDigits

/-- The enumerated parts list built by `RAGPipeline._prepare_context`. -/
def enumParts : ℕ → List (Document × ℚ) → List Str
  | _, [] => []
  | i, (doc, score) :: rest =>
    ("\nDocument ".toList ++ digitsStr i ++ " (Source: ".toList ++
      getMeta doc.metadata "source".toList "Unknown".toList ++
      ", Score: ".toList ++ render3f score ++ "):\n".toList ++
      pyStrip doc.page_content) :: enumParts (i + 1) rest

/-- `RAGPipeline._prepare_context`. -/
def prepare_context (docs : List (Document × ℚ)) : Str :=
  "\n".toList ++ List.replicate 80 '=' ++
    joinSep "\n".toList (enumParts 1 docs) ++
    "\n".toList ++ List.replicate 80 '='

/-- The canned answer returned when retrieval finds nothing. -/
def noResultsAnswer : Str := "I couldn't find any relevant information...".toList

/-- The `try:` block of `RAGPipeline.generate_response` (steps 1–4).  An
    exception anywhere in it escapes as `.error` carrying the pipeline state
    at that point, whether the generation capability had been invoked, and
    the exception message. -/
def generate_response_try (p : RAGPipeline)
    (retrieve : ℕ → Except Str (List (Document × ℚ))) (llm : Llm)
    (query : Str) (temperature? : Option ℚ) (t1 t2 : ℚ) :
    Except (RAGPipeline × Bool × Str) (RAGPipeline × Bool × RAGResult) :=
  match retrieve p.top_k with
  | .error e => .error (p, false, e)
  | .ok retrieved =>
    if retrieved.isEmpty then
      .ok (p, false,
        { answer := noResultsAnswer
          sources := []
          metadata := { retrieved_docs := some 0, retrieval_time := some t1,
                        generation_time := some 0, total_time := t2 } })
    else
      let context := prepare_context retrieved
      let override : Bool := match temperature? with
        | some t => decide (t ≠ 0) && decide (t ≠ p.generator.temperature)
        | none => false
      let g' := if override then p.generator.update none (some p.temperature) none
                else p.generator
      let p' := { p with generator := g' }
      match g'.generate llm query context with
      | .error e => .error (p', true, e)
      | .ok answer =>
        .ok (p', true,
          { answer := answer
            sources := retrieved
            context := some context
            metadata :=
              { retrieved_docs := some retrieved.length
                retrieval_time := some t1
                generation_time := some (t2 - t1)
                total_time := t2
                model := some g'.model_name
                temperature := some (match temperature? with
                  | some t => if t ≠ 0 then t else g'.temperature
                  | none => g'.temperature) } })

/-- `RAGPipeline.generate_response`: the `try:` block wrapped in the
    `except Exception` handler that converts any raised exception into a
    structured error result. -/
def generate_response (p : RAGPipeline)
    (retrieve : ℕ → Except Str (List (Document × ℚ))) (llm : Llm)
    (query : Str) (temperature? : Option ℚ) (t1 t2 : ℚ) :
    RAGPipeline × Bool × RAGResult :=
  match generate_response_try p retrieve llm query temperature? t1 t2 with
  | .ok out => out
  | .error (p', invoked, e) =>
    (p', invoked,
      { answer := "I encountered an error: ".toList ++ e
        sources := []
        metadata := { total_time := t2, error := some e } })

/-- Claim C2: whenever any exception `e` escapes the retrieval/generation
    steps, `generate_response` still returns a well-formed result: the
    answer embeds the error message, the sources list is empty, and the
    metadata records the error message and a total time.  (The embedded
    operation is total by construction: it never propagates an exception.) -/
theorem C2_exceptions_contained (p : RAGPipeline)
    (retrieve : ℕ → Except Str (List (Document × ℚ))) (llm : Llm)
    (query : Str) (temperature? : Option ℚ) (t1 t2 : ℚ)
    (p' : RAGPipeline) (b : Bool) (e : Str)
    (h : generate_response_try p retrieve llm query temperature? t1 t2 =
      .error (p', b, e)) :
    generate_response p retrieve llm query temperature? t1 t2 =
      (p', b,
        { answer := "I encountered an error: ".toList ++ e
          sources := []
          metadata := { total_time := t2, error := some e } }) := by
  unfold generate_response
  rw [h]

/-- Witness for C2: a retrieval collaborator that raises. -/
theorem C2_exceptions_contained_witness :
    generate_response ⟨1/5, 3, ⟨"command-r".toList, 1/5, 1000, 1/5⟩⟩
        (fun _ => .error "boom".toList) (fun _ _ _ => .ok []) "q".toList none 0 1 =
      (⟨1/5, 3, ⟨"command-r".toList, 1/5, 1000, 1/5⟩⟩, false,
        { answer := "I encountered an error: ".toList ++ "boom".toList
          sources := []
          metadata := { total_time := 1, error := some "boom".toList } }) :=
  C2_exceptions_contained ⟨1/5, 3, ⟨"command-r".toList, 1/5, 1000, 1/5⟩⟩
    (fun _ => .error "boom".toList) (fun _ _ _ => .ok []) "q".toList none 0 1
    ⟨1/5, 3, ⟨"command-r".toList, 1/5, 1000, 1/5⟩⟩ false "boom".toList rfl

/-- Claim C5: when retrieval returns zero results, `generate_response`
    returns the canned answer with empty sources and
    `retrieved_docs = 0`, leaves the pipeline state unchanged, and never
    invokes the generation capability (the flag is `false`). -/
theorem C5_no_results_short_circuit (p : RAGPipeline)
    (retrieve : ℕ → Except Str (List (Document × ℚ))) (llm : Llm)
    (query : Str) (temperature? : Option ℚ) (t1 t2 : ℚ)
    (h : retrieve p.top_k = .ok []) :
    generate_response p retrieve llm query temperature? t1 t2 =
      (p, false,
        { answer := noResultsAnswer
          sources := []
          metadata := { retrieved_docs := some 0, retrieval_time := some t1,
                        generation_time := some 0, total_time := t2 } }) := by
  unfold generate_response generate_response_try
  rw [h]
  rfl

/-- Witness for C5 at an always-empty retrieval collaborator. -/
theorem C5_no_results_short_circuit_witness :
    generate_response ⟨1/5, 3, ⟨"command-r".toList, 1/5, 1000, 1/5⟩⟩
        (fun _ => .ok []) (fun _ _ _ => .ok "hi".toList) "q".toList none 0 1 =
      (⟨1/5, 3, ⟨"command-r".toList, 1/5, 1000, 1/5⟩⟩, false,
        { answer := noResultsAnswer
          sources := []
          metadata := { retrieved_docs := some 0, retrieval_time := some 0,
                        generation_time := some 0, total_time := 1 } }) :=
  C5_no_results_short_circuit ⟨1/5, 3, ⟨"command-r".toList, 1/5, 1000, 1/5⟩⟩
    (fun _ => .ok []) (fun _ _ _ => .ok "hi".toList) "q".toList none 0 1 rfl

/-- A pipeline whose persisted temperature was raised to `5` by
    `update_settings` while the generator still holds `2`.  (The concrete
    values stand for any three pairwise-distinct temperatures — the
    temperatures are kept integer-valued so the scenario evaluates by
    `rfl`.) -/
def pipelineAt : RAGPipeline :=
  ⟨5, 1, ⟨"command-r".toList, 2, 1000, 2⟩⟩

/-- A model collaborator that reveals the temperature its handle was built
    with: it answers `"hot"` exactly when called at the `9` override. -/
def probeLlm : Llm :=
  fun t _ _ => .ok (if t = 9 then "hot".toList else "cold".toList)

/-- Claim C3 (code bug, evaluated at the failing input): calling
    `generate_response` with override temperature `9` against a generator
    persisted at `2` and a pipeline persisted at `5` performs the
    generation at `5` — the pipeline's persisted value, not the override,
    because the code passes `self.temperature` to `Generator.update` — and
    permanently mutates the generator's persisted temperature to `5`,
    while the metadata reports the `9` override as used. -/
theorem C3_override_ignored_and_state_mutated :
    (generate_response pipelineAt (fun _ => .ok [(docA, 0)]) probeLlm
        "q".toList (some 9) 0 1).2.2.answer = "cold".toList ∧
    (generate_response pipelineAt (fun _ => .ok [(docA, 0)]) probeLlm
        "q".toList (some 9) 0 1).1.generator.temperature = 5 ∧
    (generate_response pipelineAt (fun _ => .ok [(docA, 0)]) probeLlm
        "q".toList (some 9) 0 1).2.2.metadata.temperature = some 9 := by
  refine ⟨?_, ?_, ?_⟩ <;> rfl

end MedRag
